import Mathlib

/-!
Shallow embedding of `pywizlight/fan.py` (WiZ ceiling-fan support).

The source module has two components:

* `FanPilotBuilder` — accumulates speed / mode / reverse intents into a flat
  string-to-int payload, validating the speed domain (1–6) as it is added.
* `WizFan` — the dispatcher: `turn_on`, `turn_off`, `set_speed`, `set_mode`,
  `set_reverse`, `get_status`, `get_mode`, plus the private helpers
  `_send_state`, `_send_pilot` and `_validate_response`.

Modelling choices:

* Python dicts become association lists with unique keys by construction
  (`dictSet` inserts or overwrites in place, as dict assignment does).
* Reply values can be integers or strings, so replies use a wire-value type
  `JVal`; Python truthiness and the `or` operator are modelled explicitly
  because `_validate_response` uses `response.get("error") or
  response.get("result")`.
* The transport collaborator `self._do_command` becomes a function
  `Transport.send`; it either returns a reply mapping or fails with a
  connection or timeout error, the two exception classes the source catches.
* Each async operation is embedded as a function from a `Transport` to an
  `Eff`: the returned value or raised exception (`Except`), the ordered list
  of `sendCommand` invocations (method name and params), and the ordered list
  of log records emitted (level and the logged transport exception).
* `WizLightProtocolError` formats the sent payload, the full reply and the
  extracted error code into its message f-string; the embedding keeps the
  three values structured in the `WizError.protocol` constructor.
* Aliasing of the `payload` property (`return dict(self._payload)`, a fresh
  copy) is modelled with an explicit heap of dicts (`Store`), since copy
  semantics is a statement about references, invisible to pure values.
-/

namespace PyWizFan

/-- A wire value in a device reply: the replies handled by `fan.py` carry
integers (fan fields) and strings (`"ok"`, `"error"`, ...). -/
inductive JVal where
  | int : Int → JVal
  | str : String → JVal
deriving DecidableEq, Repr

/-- Python truthiness of a wire value: `0` and `""` are falsy. -/
def JVal.truthy : JVal → Bool
  | .int n => n != 0
  | .str s => s != ""

/-- Python `a or b` on optional wire values: `None` and falsy values fall
through to the right operand. -/
def pyOr (a b : Option JVal) : Option JVal :=
  match a with
  | some v => if v.truthy then some v else b
  | none => b

/-- An outbound `setPilot` params dict: parameter name to integer value. -/
abbrev Payload := List (String × Int)

/-- A device reply dict. -/
abbrev Resp := List (String × JVal)

/-- `dict.get(k)` on a reply: `None` when the key is absent. -/
def dictGet (d : Resp) (k : String) : Option JVal :=
  match d.find? (fun p => p.1 == k) with
  | some p => some p.2
  | none => none

/-- `d[k] = v` on a payload dict: overwrite in place if the key exists
(keeping insertion order), else append. -/
def dictSet (d : Payload) (k : String) (v : Int) : Payload :=
  if d.any (fun p => p.1 == k) then
    d.map (fun p => if p.1 == k then (k, v) else p)
  else d ++ [(k, v)]

/-- The transport failures caught by the source:
`WizLightConnectionError` and `WizLightTimeOutError`. -/
inductive TransportErr where
  | connection
  | timeout
deriving DecidableEq, Repr

/-- The exceptions `fan.py` can raise: `ValueError` (with its message),
`WizLightProtocolError` (carrying the sent payload, the full reply and the
extracted error code, all present in its message f-string), and a propagated
transport failure. -/
inductive WizError where
  | invalidArg : String → WizError
  | protocol : Payload → Resp → Option JVal → WizError
  | transport : TransportErr → WizError
deriving DecidableEq, Repr

/-- `class FanMode(IntEnum): NORMAL = 1; BREEZE = 2`. -/
inductive FanMode where
  | NORMAL
  | BREEZE
deriving DecidableEq, Repr

/-- Integer discriminant of a `FanMode`. -/
def FanMode.toInt : FanMode → Int
  | .NORMAL => 1
  | .BREEZE => 2

/-- `class FanReverse(IntEnum): SUMMER = 0; WINTER = 1`. -/
inductive FanReverse where
  | SUMMER
  | WINTER
deriving DecidableEq, Repr

/-- Integer discriminant of a `FanReverse`. -/
def FanReverse.toInt : FanReverse → Int
  | .SUMMER => 0
  | .WINTER => 1

/-- `FanPilotBuilder`: holds the accumulated `_payload` dict. -/
structure FanPilotBuilder where
  _payload : Payload
deriving DecidableEq, Repr

/-- `FanPilotBuilder.speed`: rejects values outside `range(1, 7)` with
`ValueError`, else sets `"fanSpeed"`. -/
def FanPilotBuilder.speed (b : FanPilotBuilder) (value : Int) :
    Except WizError FanPilotBuilder :=
  if value < 1 ∨ 6 < value then
    .error (.invalidArg "fanSpeed must be between 1 and 6 inclusive")
  else .ok ⟨dictSet b._payload "fanSpeed" value⟩

/-- `FanPilotBuilder.mode`: sets `"fanMode"` to `int(value)`. -/
def FanPilotBuilder.mode (b : FanPilotBuilder) (value : FanMode) : FanPilotBuilder :=
  ⟨dictSet b._payload "fanMode" value.toInt⟩

/-- `FanPilotBuilder.reverse`: sets `"fanRevrs"` to `int(value)`. -/
def FanPilotBuilder.reverse (b : FanPilotBuilder) (value : FanReverse) : FanPilotBuilder :=
  ⟨dictSet b._payload "fanRevrs" value.toInt⟩

/-- The unconditional tail of `FanPilotBuilder.__init__`: apply `mode` then
`reverse` when given. -/
def FanPilotBuilder.initRest (b : FanPilotBuilder) (mode : Option FanMode)
    (reverse : Option FanReverse) : FanPilotBuilder :=
  let b1 := match mode with
    | some m => b.mode m
    | none => b
  match reverse with
  | some r => b1.reverse r
  | none => b1

/-- `FanPilotBuilder.__init__(*, speed, mode, reverse)`: starts from an empty
`_payload` and applies `speed`, `mode`, `reverse` in that order when given;
an out-of-range speed raises out of the constructor. -/
def FanPilotBuilder.init (speed : Option Int) (mode : Option FanMode)
    (reverse : Option FanReverse) : Except WizError FanPilotBuilder :=
  match speed with
  | some s =>
    match FanPilotBuilder.speed ⟨[]⟩ s with
    | .error e => .error e
    | .ok b => .ok (b.initRest mode reverse)
  | none => .ok (FanPilotBuilder.initRest ⟨[]⟩ mode reverse)

/-- The `payload` property returns `dict(self._payload)`: as a pure value,
the same mapping (the heap-level copy semantics is modelled by
`payloadCopy` below). -/
def FanPilotBuilder.payload (b : FanPilotBuilder) : Payload := b._payload

/-- `__bool__`: truthiness of the builder is non-emptiness of `_payload`. -/
def FanPilotBuilder.toBool (b : FanPilotBuilder) : Bool := !b._payload.isEmpty

deriving instance DecidableEq for Except

/-- Log severities used by the source. -/
inductive LogLevel where
  | warning
  | error
deriving DecidableEq, Repr

/-- Outcome of one embedded async operation: the Python return value or the
raised exception, the ordered `sendCommand` invocations (method, params),
and the ordered log records (level, logged transport exception). -/
structure Eff (α : Type) where
  result : Except WizError α
  trace : List (String × Payload)
  logs : List (LogLevel × TransportErr)
deriving DecidableEq, Repr

/-- The collaborator `self._do_command(method, params)`: returns a reply
dict or raises a connection / timeout error. -/
structure Transport where
  send : String → Payload → Except TransportErr Resp

/-- `WizFan._validate_response(response, sent)`: accept iff
`response.get("result") == "ok"`; otherwise extract
`response.get("error") or response.get("result")` and raise
`WizLightProtocolError` carrying `sent`, `response` and the error code. -/
def validateResponse (response : Resp) (sent : Payload) : Except WizError Unit :=
  if dictGet response "result" = some (JVal.str "ok") then .ok ()
  else .error (.protocol sent response (pyOr (dictGet response "error") (dictGet response "result")))

/-- `WizFan._send_pilot(params)`: empty params is a silent no-op; otherwise
send `setPilot`, re-raising a transport error after an error-level log, and
validate the reply. -/
def sendPilot (t : Transport) (params : Payload) : Eff Unit :=
  if params.isEmpty then ⟨.ok (), [], []⟩
  else
    match t.send "setPilot" params with
    | .error e => ⟨.error (.transport e), [("setPilot", params)], [(.error, e)]⟩
    | .ok resp => ⟨validateResponse resp params, [("setPilot", params)], []⟩

/-- `WizFan._send_state(state)`: reject states outside `{0, 1}` with
`ValueError`, else send `{"fanState": state}` alone. -/
def sendState (t : Transport) (state : Int) : Eff Unit :=
  if state ≠ 0 ∧ state ≠ 1 then
    ⟨.error (.invalidArg "fanState must be 0 (off) or 1 (on)"), [], []⟩
  else sendPilot t [("fanState", state)]

/-- `WizFan.turn_on(*, speed, mode, reverse)`: send the isolated power-on
command; if that raised, stop; else if any optional argument was given, build
a pilot payload and send it as a second command. -/
def turnOn (t : Transport) (speed : Option Int) (mode : Option FanMode)
    (reverse : Option FanReverse) : Eff Unit :=
  let r1 := sendState t 1
  match r1.result with
  | .error _ => r1
  | .ok _ =>
    if speed.isSome || mode.isSome || reverse.isSome then
      match FanPilotBuilder.init speed mode reverse with
      | .error e => ⟨.error e, r1.trace, r1.logs⟩
      | .ok b =>
        let r2 := sendPilot t b.payload
        ⟨r2.result, r1.trace ++ r2.trace, r1.logs ++ r2.logs⟩
    else r1

/-- `WizFan.turn_off()`: send `{"fanState": 0}` alone. -/
def turnOff (t : Transport) : Eff Unit := sendState t 0

/-- `WizFan.set_speed(speed)`: `_send_pilot(FanPilotBuilder(speed=speed).payload)`;
a builder `ValueError` propagates before any send. -/
def setSpeed (t : Transport) (speed : Int) : Eff Unit :=
  match FanPilotBuilder.init (some speed) none none with
  | .error e => ⟨.error e, [], []⟩
  | .ok b => sendPilot t b.payload

/-- `WizFan.set_mode(mode)`. -/
def setMode (t : Transport) (mode : FanMode) : Eff Unit :=
  match FanPilotBuilder.init none (some mode) none with
  | .error e => ⟨.error e, [], []⟩
  | .ok b => sendPilot t b.payload

/-- `WizFan.set_reverse(reverse)`. -/
def setReverse (t : Transport) (reverse : FanReverse) : Eff Unit :=
  match FanPilotBuilder.init none none (some reverse) with
  | .error e => ⟨.error e, [], []⟩
  | .ok b => sendPilot t b.payload

/-- `WizFan.get_status()`: `getPilot` with empty params, returning the raw
reply; a transport error is re-raised after a warning-level log. -/
def getStatus (t : Transport) : Eff Resp :=
  match t.send "getPilot" [] with
  | .ok r => ⟨.ok r, [("getPilot", [])], []⟩
  | .error e => ⟨.error (.transport e), [("getPilot", [])], [(.warning, e)]⟩

/-- `FanMode(x)`: the `IntEnum` call returns the member for 1 and 2 and
raises `ValueError` for any other value. -/
def toFanMode (v : JVal) : Except WizError FanMode :=
  match v with
  | .int n =>
    if n = 1 then .ok .NORMAL
    else if n = 2 then .ok .BREEZE
    else .error (.invalidArg "is not a valid FanMode")
  | .str _ => .error (.invalidArg "is not a valid FanMode")

/-- `WizFan.get_mode()`:
`FanMode((await self.get_status()).get("fanMode", FanMode.NORMAL))`. -/
def getMode (t : Transport) : Eff FanMode :=
  let r := getStatus t
  match r.result with
  | .error e => ⟨.error e, r.trace, r.logs⟩
  | .ok resp => ⟨toFanMode ((dictGet resp "fanMode").getD (JVal.int 1)), r.trace, r.logs⟩

/-- A heap of payload dicts; a dict reference is an index into the heap. -/
abbrev Store := List Payload

/-- Dereference a dict. -/
def Store.read (st : Store) (r : Nat) : Payload := (st[r]?).getD []

/-- Mutate the dict behind a reference (models in-place dict mutation). -/
def Store.write (st : Store) (r : Nat) (d : Payload) : Store := st.set r d

/-- The `payload` property under the explicit heap: `return dict(self._payload)`
allocates a fresh dict holding a copy of the builder dict at reference `r`
and returns the new store and the fresh reference. -/
def payloadCopy (st : Store) (r : Nat) : Store × Nat :=
  (st ++ [Store.read st r], st.length)

/-- One fluent builder call: `speed`, `mode` or `reverse`. -/
inductive BuilderOp where
  | speed (v : Int)
  | mode (m : FanMode)
  | reverse (r : FanReverse)

/-- Run a sequence of fluent builder calls; a `ValueError` aborts the chain. -/
def applyOps (b : FanPilotBuilder) : List BuilderOp → Except WizError FanPilotBuilder
  | [] => .ok b
  | op :: rest =>
    match op with
    | .speed v =>
      match b.speed v with
      | .error e => .error e
      | .ok b1 => applyOps b1 rest
    | .mode m => applyOps (b.mode m) rest
    | .reverse r => applyOps (b.reverse r) rest

/-- Whether a raised exception is the typed protocol failure
(`WizLightProtocolError`). -/
def WizError.isProtocol : WizError → Bool
  | .protocol _ _ _ => true
  | _ => false

/-- A transport whose every command succeeds with `{"result": "ok"}`. -/
def tOk : Transport := ⟨fun _ _ => .ok [("result", JVal.str "ok")]⟩

/-- A transport whose every command raises a timeout. -/
def tFail : Transport := ⟨fun _ _ => .error .timeout⟩

/-- A transport whose `getPilot` reply reports the out-of-domain mode 3. -/
def tMode3 : Transport := ⟨fun _ _ => .ok [("fanMode", JVal.int 3)]⟩

/-- A transport whose `getPilot` reply carries more fields and the
out-of-domain mode 9. -/
def tMode9 : Transport :=
  ⟨fun _ _ => .ok [("result", JVal.str "ok"), ("fanMode", JVal.int 9), ("fanSpeed", JVal.int 2)]⟩

/-- Whether an embedded `get_mode` outcome is a raised protocol failure. -/
def raisesProtocol (r : Except WizError FanMode) : Bool :=
  match r with
  | .error e => e.isProtocol
  | .ok _ => false

/-- The builder key invariant: every key of a builder payload is one of the
three pilot parameter names. -/
def goodKeys (p : Payload) : Prop :=
  ∀ kv ∈ p, kv.1 = "fanSpeed" ∨ kv.1 = "fanMode" ∨ kv.1 = "fanRevrs"

/-! ### Helper lemmas shared by the claim theorems -/

/-- `_send_pilot` records exactly one `setPilot` send unless the payload is
empty, in which case it records none. -/
theorem sendPilot_trace (t : Transport) (params : Payload) :
    (sendPilot t params).trace =
      if params.isEmpty then [] else [("setPilot", params)] := by
  unfold sendPilot
  by_cases h : params.isEmpty
  · simp [h]
  · simp only [h, Bool.false_eq_true, if_false]
    cases t.send "setPilot" params <;> simp

/-- `_send_state(1)` passes the domain guard and delegates to `_send_pilot`. -/
theorem sendState_one (t : Transport) :
    sendState t 1 = sendPilot t [("fanState", 1)] := by
  unfold sendState
  norm_num

/-- `_send_state(0)` passes the domain guard and delegates to `_send_pilot`. -/
theorem sendState_zero (t : Transport) :
    sendState t 0 = sendPilot t [("fanState", 0)] := by
  unfold sendState
  norm_num

/-- `turn_on` with no optional arguments is exactly `_send_state(1)`. -/
theorem turnOn_none_eq (t : Transport) :
    turnOn t none none none = sendState t 1 := by
  unfold turnOn
  cases h : (sendState t 1).result <;> simp [h]

/-! ### Claim theorems -/

/-- C6: an apply-command send with an empty payload mapping transmits
nothing, awaits no reply, raises nothing and logs nothing: `_send_pilot({})`
returns immediately with an empty command trace and empty log trace. -/
theorem send_pilot_empty_payload_noop (t : Transport) :
    sendPilot t [] = ⟨.ok (), [], []⟩ := rfl

/-- C2: `turn_on()` with no optional parameters sends exactly one command,
with payload exactly `{"fanState": 1}`; `turn_off()` sends exactly one
command, with payload exactly `{"fanState": 0}` and no other key. -/
theorem power_toggle_sends_single_isolated_command (t : Transport) :
    (turnOn t none none none).trace = [("setPilot", [("fanState", 1)])] ∧
    (turnOff t).trace = [("setPilot", [("fanState", 0)])] := by
  constructor
  · rw [turnOn_none_eq, sendState_one, sendPilot_trace]
    rfl
  · show (sendState t 0).trace = _
    rw [sendState_zero, sendPilot_trace]
    rfl

/-- C5: a reply carrying neither an `error` field nor a `result` field is
rejected with `WizLightProtocolError` whose extracted error code is `None`;
`_validate_response` is total on such replies (it uses `dict.get`, so no
key-lookup failure can occur). -/
theorem validate_response_missing_fields_safe (resp : Resp) (sent : Payload)
    (he : dictGet resp "error" = none) (hr : dictGet resp "result" = none) :
    validateResponse resp sent = .error (.protocol sent resp none) := by
  unfold validateResponse
  rw [hr, he]
  simp [pyOr]

/-- Witness for C5 at the empty reply. -/
theorem validate_response_missing_fields_safe_witness :
    validateResponse [] [("fanSpeed", 3)] = .error (.protocol [("fanSpeed", 3)] [] none) :=
  validate_response_missing_fields_safe [] [("fanSpeed", 3)] rfl rfl

/-- C3: a reply is accepted iff its `result` field equals `"ok"`; otherwise
`_validate_response` raises `WizLightProtocolError` carrying the sent
payload, the full reply, and the error code extracted as
`response.get("error") or response.get("result")` (Python `or`, so a falsy
`error` value falls through to the `result` value); in particular the reply
`{"result": "error", "error": "invalid"}` yields the code `"invalid"`. -/
theorem validate_response_accept_iff_result_ok (resp : Resp) (sent : Payload) :
    (validateResponse resp sent = .ok () ↔ dictGet resp "result" = some (JVal.str "ok")) ∧
    (dictGet resp "result" ≠ some (JVal.str "ok") →
      validateResponse resp sent =
        .error (.protocol sent resp (pyOr (dictGet resp "error") (dictGet resp "result")))) ∧
    validateResponse [("result", JVal.str "error"), ("error", JVal.str "invalid")] sent =
      .error (.protocol sent [("result", JVal.str "error"), ("error", JVal.str "invalid")]
        (some (JVal.str "invalid"))) := by
  refine ⟨?_, ?_, ?_⟩
  · unfold validateResponse
    by_cases h : dictGet resp "result" = some (JVal.str "ok") <;> simp [h]
  · intro h
    unfold validateResponse
    simp [h]
  · rfl

/-- Witness for C3 at the reply `{"result": "error", "error": "invalid"}`. -/
theorem validate_response_accept_iff_result_ok_witness :
    validateResponse [("result", JVal.str "error"), ("error", JVal.str "invalid")]
      [("fanSpeed", 2)] =
      .error (.protocol [("fanSpeed", 2)]
        [("result", JVal.str "error"), ("error", JVal.str "invalid")]
        (some (JVal.str "invalid"))) :=
  (validate_response_accept_iff_result_ok
    [("result", JVal.str "error"), ("error", JVal.str "invalid")] [("fanSpeed", 2)]).2.1
    (by decide)

/-- C7: when the collaborator's send fails with a connection or timeout
error during an apply-command (`_send_pilot`) or a status query
(`get_status`), exactly that transport error is re-raised (not retried,
swallowed or translated — the command trace shows a single send), after one
diagnostic log record (error level for the apply path, warning level for the
query path); the log does not change the result. -/
theorem transport_failure_propagates_unchanged (t : Transport) :
    (∀ params e, params ≠ [] → t.send "setPilot" params = .error e →
      sendPilot t params =
        ⟨.error (.transport e), [("setPilot", params)], [(.error, e)]⟩) ∧
    (∀ e, t.send "getPilot" [] = .error e →
      getStatus t = ⟨.error (.transport e), [("getPilot", [])], [(.warning, e)]⟩) := by
  constructor
  · intro params e hne hs
    cases params with
    | nil => exact absurd rfl hne
    | cons p ps => simp [sendPilot, hs]
  · intro e hs
    simp [getStatus, hs]

/-- Witness for C7 at the always-timeout transport. -/
theorem transport_failure_propagates_unchanged_witness :
    sendPilot tFail [("fanState", 1)] =
      ⟨.error (.transport .timeout), [("setPilot", [("fanState", 1)])],
        [(.error, .timeout)]⟩ ∧
    getStatus tFail =
      ⟨.error (.transport .timeout), [("getPilot", [])], [(.warning, .timeout)]⟩ :=
  ⟨(transport_failure_propagates_unchanged tFail).1 [("fanState", 1)] .timeout
      (by decide) rfl,
   (transport_failure_propagates_unchanged tFail).2 .timeout rfl⟩

/-- C1: `turn_on(speed=3)`: when the power command succeeds, exactly two
apply-commands are sent, in order `{"fanState": 1}` then `{"fanSpeed": 3}`;
when the power command raises, `turn_on` returns that outcome unchanged, so
only the power command was sent and the speed command is never attempted. -/
theorem turn_on_with_speed_sends_power_then_speed (t : Transport) :
    ((sendState t 1).result = .ok () →
      (turnOn t (some 3) none none).trace =
        [("setPilot", [("fanState", 1)]), ("setPilot", [("fanSpeed", 3)])]) ∧
    (∀ e, (sendState t 1).result = .error e →
      turnOn t (some 3) none none = sendState t 1) := by
  constructor
  · intro h
    have hb : FanPilotBuilder.init (some 3) none none = .ok ⟨[("fanSpeed", 3)]⟩ := rfl
    have h1 : (sendState t 1).trace = [("setPilot", [("fanState", 1)])] := by
      rw [sendState_one, sendPilot_trace]
      rfl
    have h2 : (sendPilot t [("fanSpeed", 3)]).trace = [("setPilot", [("fanSpeed", 3)])] := by
      rw [sendPilot_trace]
      rfl
    unfold turnOn
    simp [h, hb, FanPilotBuilder.payload, h1, h2]
  · intro e h
    unfold turnOn
    simp [h]

/-- Witness for C1 at the always-ok and the always-timeout transports. -/
theorem turn_on_with_speed_sends_power_then_speed_witness :
    (turnOn tOk (some 3) none none).trace =
      [("setPilot", [("fanState", 1)]), ("setPilot", [("fanSpeed", 3)])] ∧
    turnOn tFail (some 3) none none = sendState tFail 1 :=
  ⟨(turn_on_with_speed_sends_power_then_speed tOk).1 rfl,
   (turn_on_with_speed_sends_power_then_speed tFail).2 (.transport .timeout) rfl⟩

/-- C4: for every integer 1–6 the builder accepts the speed and `set_speed`
transmits the single-key payload `{"fanSpeed": v}`; for every integer
outside 1–6 `set_speed` raises `ValueError` and transmits nothing. -/
theorem set_speed_domain_and_transmission (t : Transport) (v : Int) :
    (1 ≤ v ∧ v ≤ 6 →
      FanPilotBuilder.init (some v) none none = .ok ⟨[("fanSpeed", v)]⟩ ∧
      (setSpeed t v).trace = [("setPilot", [("fanSpeed", v)])]) ∧
    (¬(1 ≤ v ∧ v ≤ 6) →
      (setSpeed t v).result =
        .error (.invalidArg "fanSpeed must be between 1 and 6 inclusive") ∧
      (setSpeed t v).trace = []) := by
  constructor
  · rintro ⟨hlo, hhi⟩
    have hv : ¬(v < 1 ∨ 6 < v) := by omega
    have hb : FanPilotBuilder.init (some v) none none = .ok ⟨[("fanSpeed", v)]⟩ := by
      simp [FanPilotBuilder.init, FanPilotBuilder.speed, FanPilotBuilder.initRest,
        dictSet, hv]
    refine ⟨hb, ?_⟩
    unfold setSpeed
    rw [hb]
    show (sendPilot t [("fanSpeed", v)]).trace = _
    rw [sendPilot_trace]
    rfl
  · intro h
    have hv : v < 1 ∨ 6 < v := by omega
    have hb : FanPilotBuilder.init (some v) none none =
        .error (.invalidArg "fanSpeed must be between 1 and 6 inclusive") := by
      simp [FanPilotBuilder.init, FanPilotBuilder.speed, hv]
    constructor <;> simp [setSpeed, hb]

/-- Witness for C4 at the in-range speed 3 and the out-of-range speed 7. -/
theorem set_speed_domain_and_transmission_witness :
    (setSpeed tOk 3).trace = [("setPilot", [("fanSpeed", 3)])] ∧
    (setSpeed tOk 7).trace = [] :=
  ⟨((set_speed_domain_and_transmission tOk 3).1 (by omega)).2,
   ((set_speed_domain_and_transmission tOk 7).2 (by omega)).2⟩

/-- Reading a freshly appended dict at the fresh reference yields it. -/
theorem store_read_alloc (st : Store) (d : Payload) :
    Store.read (st ++ [d]) st.length = d := by
  simp [Store.read, List.getElem?_concat_length]

/-- Reading below the old length is unaffected by an append. -/
theorem store_read_append (st : Store) (d : Payload) (r : Nat) (h : r < st.length) :
    Store.read (st ++ [d]) r = Store.read st r := by
  simp [Store.read, List.getElem?_append, h]

/-- Writing one reference leaves every other reference unchanged. -/
theorem store_read_write_ne (st : Store) (i j : Nat) (d : Payload) (h : i ≠ j) :
    Store.read (Store.write st i d) j = Store.read st j := by
  simp [Store.read, Store.write, List.getElem?_set_ne h]

/-- C8: the `payload` property returns a fresh copy (`dict(self._payload)`):
mutating the returned dict, however arbitrarily, leaves the builder's
internal dict unchanged, and a subsequent `payload` access still returns the
original contents. -/
theorem payload_accessor_returns_copy (st : Store) (r : Nat) (h : r < st.length)
    (d2 : Payload) :
    Store.read (Store.write (payloadCopy st r).1 (payloadCopy st r).2 d2) r =
      Store.read st r ∧
    Store.read (payloadCopy (Store.write (payloadCopy st r).1 (payloadCopy st r).2 d2) r).1
      (payloadCopy (Store.write (payloadCopy st r).1 (payloadCopy st r).2 d2) r).2 =
      Store.read st r := by
  have hne : st.length ≠ r := by omega
  have h1 : Store.read (Store.write (payloadCopy st r).1 (payloadCopy st r).2 d2) r =
      Store.read st r := by
    show Store.read (Store.write (st ++ [Store.read st r]) st.length d2) r = Store.read st r
    rw [store_read_write_ne _ _ _ _ hne, store_read_append _ _ _ h]
  refine ⟨h1, ?_⟩
  rw [show (payloadCopy (Store.write (payloadCopy st r).1 (payloadCopy st r).2 d2) r).1 =
      Store.write (payloadCopy st r).1 (payloadCopy st r).2 d2 ++
        [Store.read (Store.write (payloadCopy st r).1 (payloadCopy st r).2 d2) r] from rfl]
  rw [show (payloadCopy (Store.write (payloadCopy st r).1 (payloadCopy st r).2 d2) r).2 =
      (Store.write (payloadCopy st r).1 (payloadCopy st r).2 d2).length from rfl]
  rw [store_read_alloc, h1]

/-- Witness for C8: a one-builder heap whose copy is overwritten with a
power payload; the builder dict still reads `{"fanSpeed": 3}`. -/
theorem payload_accessor_returns_copy_witness :
    Store.read (Store.write (payloadCopy [[("fanSpeed", 3)]] 0).1
      (payloadCopy [[("fanSpeed", 3)]] 0).2 [("fanState", 1)]) 0 = [("fanSpeed", 3)] :=
  (payload_accessor_returns_copy [[("fanSpeed", 3)]] 0 (by decide) [("fanState", 1)]).1

/-- C9 counterexample: on a `getPilot` reply carrying `fanMode = 3` the
accessor raises the enum conversion `ValueError`, not the typed
`WizLightProtocolError` the claim names. -/
theorem get_mode_raises_value_error_not_protocol :
    (getMode tMode3).result = .error (.invalidArg "is not a valid FanMode") ∧
    raisesProtocol (getMode tMode3).result = false := ⟨rfl, rfl⟩

/-- C9 (amended): for every integer observed in the `fanMode` field outside
`{1, 2}`, `get_mode` raises rather than returning the value — but the raised
error is the `ValueError` from the `FanMode(...)` enum conversion
(`InvalidArgument`), not a `WizLightProtocolError`. -/
theorem get_mode_out_of_domain_raises_invalid_argument (t : Transport) (resp : Resp)
    (n : Int) (hs : t.send "getPilot" [] = .ok resp)
    (hm : dictGet resp "fanMode" = some (JVal.int n)) (h1 : n ≠ 1) (h2 : n ≠ 2) :
    (getMode t).result = .error (.invalidArg "is not a valid FanMode") ∧
    raisesProtocol (getMode t).result = false := by
  have hr : (getMode t).result = .error (.invalidArg "is not a valid FanMode") := by
    unfold getMode getStatus
    rw [hs]
    simp [hm, toFanMode, h1, h2]
  exact ⟨hr, by rw [hr]; rfl⟩

/-- Witness for the amended C9 at the mode-9 transport. -/
theorem get_mode_out_of_domain_raises_invalid_argument_witness :
    (getMode tMode9).result = .error (.invalidArg "is not a valid FanMode") ∧
    raisesProtocol (getMode tMode9).result = false :=
  get_mode_out_of_domain_raises_invalid_argument tMode9
    [("result", JVal.str "ok"), ("fanMode", JVal.int 9), ("fanSpeed", JVal.int 2)] 9
    rfl rfl (by decide) (by decide)

/-- `dictSet` with one of the three pilot keys preserves the key invariant. -/
theorem dictSet_goodKeys {p : Payload} {k : String} {v : Int} (hp : goodKeys p)
    (hk : k = "fanSpeed" ∨ k = "fanMode" ∨ k = "fanRevrs") :
    goodKeys (dictSet p k v) := by
  intro kv hkv
  unfold dictSet at hkv
  by_cases hc : p.any (fun q => q.1 == k)
  · rw [if_pos hc, List.mem_map] at hkv
    obtain ⟨q, hq, hqe⟩ := hkv
    by_cases hqk : (q.1 == k) = true
    · rw [if_pos hqk] at hqe
      subst hqe
      exact hk
    · rw [if_neg hqk] at hqe
      subst hqe
      exact hp q hq
  · rw [if_neg hc, List.mem_append] at hkv
    rcases hkv with hq | hq
    · exact hp kv hq
    · rw [List.mem_singleton] at hq
      subst hq
      exact hk

/-- Every fluent builder call preserves the key invariant. -/
theorem applyOps_goodKeys (ops : List BuilderOp) (b b2 : FanPilotBuilder)
    (hb : goodKeys b._payload) (h : applyOps b ops = .ok b2) :
    goodKeys b2._payload := by
  induction ops generalizing b with
  | nil =>
    simp only [applyOps] at h
    cases h
    exact hb
  | cons op rest ih =>
    cases op with
    | speed v =>
      simp only [applyOps, FanPilotBuilder.speed] at h
      by_cases hv : v < 1 ∨ 6 < v
      · rw [if_pos hv] at h
        exact absurd h (by simp)
      · rw [if_neg hv] at h
        exact ih ⟨dictSet b._payload "fanSpeed" v⟩ (dictSet_goodKeys hb (Or.inl rfl)) h
    | mode m =>
      simp only [applyOps, FanPilotBuilder.mode] at h
      exact ih ⟨dictSet b._payload "fanMode" m.toInt⟩
        (dictSet_goodKeys hb (Or.inr (Or.inl rfl))) h
    | reverse r =>
      simp only [applyOps, FanPilotBuilder.reverse] at h
      exact ih ⟨dictSet b._payload "fanRevrs" r.toInt⟩
        (dictSet_goodKeys hb (Or.inr (Or.inr rfl))) h

/-- `set_mode` transmits exactly the single-key mode payload. -/
theorem setMode_trace (t : Transport) (m : FanMode) :
    (setMode t m).trace = [("setPilot", [("fanMode", m.toInt)])] := by
  have hb : FanPilotBuilder.init none (some m) none = .ok ⟨[("fanMode", m.toInt)]⟩ := by
    simp [FanPilotBuilder.init, FanPilotBuilder.initRest, FanPilotBuilder.mode, dictSet]
  unfold setMode
  rw [hb]
  show (sendPilot t [("fanMode", m.toInt)]).trace = _
  rw [sendPilot_trace]
  rfl

/-- `set_reverse` transmits exactly the single-key direction payload. -/
theorem setReverse_trace (t : Transport) (r : FanReverse) :
    (setReverse t r).trace = [("setPilot", [("fanRevrs", r.toInt)])] := by
  have hb : FanPilotBuilder.init none none (some r) = .ok ⟨[("fanRevrs", r.toInt)]⟩ := by
    simp [FanPilotBuilder.init, FanPilotBuilder.initRest, FanPilotBuilder.reverse, dictSet]
  unfold setReverse
  rw [hb]
  show (sendPilot t [("fanRevrs", r.toInt)]).trace = _
  rw [sendPilot_trace]
  rfl

/-- `set_speed` transmits either nothing (rejected speed) or exactly the
single-key speed payload. -/
theorem setSpeed_trace (t : Transport) (v : Int) :
    (setSpeed t v).trace = [] ∨
    (setSpeed t v).trace = [("setPilot", [("fanSpeed", v)])] := by
  by_cases hv : v < 1 ∨ 6 < v
  · left
    have hb : FanPilotBuilder.init (some v) none none =
        .error (.invalidArg "fanSpeed must be between 1 and 6 inclusive") := by
      simp [FanPilotBuilder.init, FanPilotBuilder.speed, hv]
    simp [setSpeed, hb]
  · right
    have hb : FanPilotBuilder.init (some v) none none = .ok ⟨[("fanSpeed", v)]⟩ := by
      simp [FanPilotBuilder.init, FanPilotBuilder.speed, FanPilotBuilder.initRest,
        dictSet, hv]
    unfold setSpeed
    rw [hb]
    show (sendPilot t [("fanSpeed", v)]).trace = _
    rw [sendPilot_trace]
    rfl

/-- C10: every payload reachable by builder operations from the empty
builder has its key set inside `{"fanSpeed", "fanMode", "fanRevrs"}`, so it
never contains `"fanState"`; consequently no payload transmitted by
`set_speed`, `set_mode` or `set_reverse` carries the power-state key. -/
theorem builder_payload_never_contains_power_key (ops : List BuilderOp)
    (b : FanPilotBuilder) (h : applyOps ⟨[]⟩ ops = .ok b) :
    (∀ kv ∈ b._payload, kv.1 = "fanSpeed" ∨ kv.1 = "fanMode" ∨ kv.1 = "fanRevrs") ∧
    (∀ kv ∈ b._payload, kv.1 ≠ "fanState") ∧
    (∀ (t : Transport) (v : Int) (m : FanMode) (rv : FanReverse),
      (∀ c ∈ (setSpeed t v).trace, ∀ kv ∈ c.2, kv.1 ≠ "fanState") ∧
      (∀ c ∈ (setMode t m).trace, ∀ kv ∈ c.2, kv.1 ≠ "fanState") ∧
      (∀ c ∈ (setReverse t rv).trace, ∀ kv ∈ c.2, kv.1 ≠ "fanState")) := by
  have hg : goodKeys b._payload :=
    applyOps_goodKeys ops ⟨[]⟩ b (by intro kv hkv; cases hkv) h
  refine ⟨hg, ?_, ?_⟩
  · intro kv hkv hcon
    rcases hg kv hkv with h1 | h2 | h3 <;> simp_all
  · intro t v m rv
    refine ⟨?_, ?_, ?_⟩
    · intro c hc kv hkv
      rcases setSpeed_trace t v with hs | hs <;> rw [hs] at hc
      · cases hc
      · rw [List.mem_singleton] at hc
        subst hc
        rw [List.mem_singleton] at hkv
        subst hkv
        simp
    · intro c hc kv hkv
      rw [setMode_trace, List.mem_singleton] at hc
      subst hc
      rw [List.mem_singleton] at hkv
      subst hkv
      simp
    · intro c hc kv hkv
      rw [setReverse_trace, List.mem_singleton] at hc
      subst hc
      rw [List.mem_singleton] at hkv
      subst hkv
      simp

/-- Witness for C10: the chain `speed(3); mode(BREEZE); reverse(WINTER)`
reaches the payload `{"fanSpeed": 3, "fanMode": 2, "fanRevrs": 1}` and none
of its keys is `"fanState"`. -/
theorem builder_payload_never_contains_power_key_witness :
    ("fanSpeed", (3 : Int)).1 ≠ "fanState" ∧
    ("fanMode", (2 : Int)).1 ≠ "fanState" ∧
    ("fanRevrs", (1 : Int)).1 ≠ "fanState" :=
  have h := builder_payload_never_contains_power_key
    [.speed 3, .mode .BREEZE, .reverse .WINTER]
    ⟨[("fanSpeed", 3), ("fanMode", 2), ("fanRevrs", 1)]⟩ (by decide)
  ⟨h.2.1 _ (by decide), h.2.1 _ (by decide), h.2.1 _ (by decide)⟩

end PyWizFan
